import Mathlib

/-!
Verification of the GemRPG turn-progression and session-state logic.

This file shallowly embeds the server routes (src/server/routes.ts, second
schema variant), the storage layer (src/server/storage.ts), the client game
engine (AdventureAPI / GameScreen, src/unnamed/part_002 and part_005) and the
rate limiter, and proves or refutes the frozen claims about them.
-/

namespace GemRPG

/-- Session status enum from the adventures schema. -/
inductive Status
  | active
  | completed
  | abandoned
deriving DecidableEq

/-- Ending type enum from the adventures schema. -/
inductive EndingType
  | victory
  | death
  | limit_reached
deriving DecidableEq

/-- Campaign data blob (CampaignData interface in the client game engine). -/
structure CampaignData where
  title : String
  act1 : String
  act2 : String
  act3 : String
  possible_endings : List String
  world_backstory : String
  character_backstory : String
deriving DecidableEq

/-- A persisted adventure row (Adventure interface / adventures table).
Timestamps and the row id are not modeled; no claim mentions them. -/
structure Adventure where
  userId : String
  characterName : String
  characterRace : String
  characterClass : String
  characterGender : String
  characterDescription : String
  campaignData : Option CampaignData
  themeSeeds : Option String
  currentHp : Int
  gold : Int
  inventory : List String
  turnCount : Nat
  maxTurns : Int
  status : Status
  endingType : Option EndingType
  lastImage : Option String
deriving DecidableEq

/-- A persisted turn row (AdventureTurn interface / adventure_turns table). -/
structure AdventureTurn where
  turnNumber : Nat
  playerAction : String
  narrative : String
  visualPrompt : Option String
  hpAfter : Int
  goldAfter : Int
  inventoryAfter : List String
  options : List String
deriving DecidableEq

/-- A successfully parsed generator turn response (chatResponseSchema shape).
The 403/500 fallback bodies produced by the chat route carry no visual_prompt
field; they are modeled with visual_prompt = "", which is interchangeable with
an absent field everywhere the clients read it (both are falsy in JS and the
field is deleted before the response enters conversation history). -/
structure TurnResponse where
  narrative : String
  visual_prompt : String
  hp_current : Int
  gold : Int
  inventory : List String
  options : List String
  game_over : Bool
deriving DecidableEq

/-- One conversation history entry ({role, parts:[{text}]}); every entry in
this codebase has exactly one part, modeled as a single text. -/
structure HistoryEntry where
  role : String
  text : String
deriving DecidableEq

/-- Body of POST /api/adventures/:id/turn (createTurnSchema). -/
structure TurnData where
  playerAction : String
  narrative : String
  visualPrompt : Option String
  hpAfter : Int
  goldAfter : Int
  inventoryAfter : List String
  options : List String
deriving DecidableEq

/-- Body of PATCH /api/adventures/:id (adventureUpdateSchema); every field
optional. The zod enum for endingType cannot encode null, so a patch can set
endingType but never clear it. -/
structure PatchData where
  currentHp : Option Int := none
  gold : Option Int := none
  inventory : Option (List String) := none
  status : Option Status := none
  endingType : Option EndingType := none
  lastImage : Option String := none
deriving DecidableEq

/-- One persisted session together with its turn rows. -/
structure SessionState where
  adventure : Adventure
  turns : List AdventureTurn
deriving DecidableEq

/-- JS falsy-or on numbers: `x || d` is d when x = 0 and x otherwise. -/
def jsOrInt (x d : Int) : Int := if x = 0 then d else x

/-- createTurnSchema validation: playerAction and narrative need min length 1;
everything else is unconstrained. -/
def createTurnValid (t : TurnData) : Bool :=
  decide (t.playerAction ≠ "") && decide (t.narrative ≠ "")

/-- The turn row built by POST /api/adventures/:id/turn; visualPrompt goes
through `turnData.visualPrompt || null`, so an empty string becomes null. -/
def mkTurnRow (n : Nat) (t : TurnData) : AdventureTurn :=
  { turnNumber := n
    playerAction := t.playerAction
    narrative := t.narrative
    visualPrompt := match t.visualPrompt with
      | some v => if v = "" then none else some v
      | none => none
    hpAfter := t.hpAfter
    goldAfter := t.goldAfter
    inventoryAfter := t.inventoryAfter
    options := t.options }

/-- POST /api/adventures/:id/turn after the ownership check: requires an
active adventure and valid turn data, appends a row numbered turnCount + 1 and
overwrites turnCount, currentHp, gold and inventory. On a precondition
failure the route answers 400 and the store is untouched. -/
def saveTurnRoute (s : SessionState) (t : TurnData) : SessionState :=
  if s.adventure.status ≠ Status.active then s
  else if ¬ createTurnValid t then s
  else
    let n := s.adventure.turnCount + 1
    { adventure := { s.adventure with
        turnCount := n
        currentHp := t.hpAfter
        gold := t.goldAfter
        inventory := t.inventoryAfter }
      turns := s.turns ++ [mkTurnRow n t] }

/-- POST /api/adventures/:id/restart after the ownership check: deletes all
turn rows, then updates the adventure with the literal reset values used by
the route (turnCount 0, hp 30, gold 10, empty inventory, active, null
ending). -/
def restartRoute (s : SessionState) : SessionState :=
  { adventure := { s.adventure with
      turnCount := 0
      currentHp := 30
      gold := 10
      inventory := []
      status := Status.active
      endingType := none }
    turns := [] }

/-- storage.updateAdventure restricted to the PATCH-validated fields: each
present field overwrites, absent fields are kept. -/
def patchRoute (s : SessionState) (u : PatchData) : SessionState :=
  { s with adventure := { s.adventure with
      currentHp := u.currentHp.getD s.adventure.currentHp
      gold := u.gold.getD s.adventure.gold
      inventory := u.inventory.getD s.adventure.inventory
      status := u.status.getD s.adventure.status
      endingType := match u.endingType with
        | some e => some e
        | none => s.adventure.endingType
      lastImage := match u.lastImage with
        | some i => some i
        | none => s.adventure.lastImage } }

/-- The session-mutating operations of the API surface. Reads and whole-session
deletion are omitted: reads do not change state and deletion removes the
session the invariant speaks about. -/
inductive Op
  | saveTurn (t : TurnData)
  | restart
  | patch (u : PatchData)

/-- Dispatch of the mutating operations. -/
def applyOp : Op → SessionState → SessionState
  | Op.saveTurn t, s => saveTurnRoute s t
  | Op.restart, s => restartRoute s
  | Op.patch u, s => patchRoute s u

/-- Turn rows carry numbers n+1, n+2, ... in list order. -/
def numberedFrom : Nat → List AdventureTurn → Bool
  | _, [] => true
  | n, t :: ts => decide (t.turnNumber = n + 1) && numberedFrom (n + 1) ts

/-- The last turn row's snapshot agrees with the session's derived state
(trivially true when there are no rows). -/
def snapshotOk (s : SessionState) : Bool :=
  match s.turns.getLast? with
  | none => true
  | some t =>
      decide (t.hpAfter = s.adventure.currentHp) &&
      decide (t.goldAfter = s.adventure.gold) &&
      decide (t.inventoryAfter = s.adventure.inventory)

/-- Count-and-numbering half of the session invariant: turnCount equals the
number of rows and the rows are numbered 1..turnCount. -/
def countInv (s : SessionState) : Bool :=
  decide (s.adventure.turnCount = s.turns.length) && numberedFrom 0 s.turns

/-- Full session invariant of claim C1. -/
def sessionInv (s : SessionState) : Bool :=
  countInv s && snapshotOk s

/-- The ending type derived by the client on game over
(response.hp_current <= 0 ? death : victory). -/
def derivedEnding (r : TurnResponse) : EndingType :=
  if r.hp_current ≤ 0 then EndingType.death else EndingType.victory

/-- The turn-save body the client builds from a chat response
(AdventureAPI.saveTurn call in GameScreen.handleTurn). -/
def turnDataOfResponse (action : String) (r : TurnResponse) : TurnData :=
  { playerAction := action
    narrative := r.narrative
    visualPrompt := some r.visual_prompt
    hpAfter := r.hp_current
    goldAfter := r.gold
    inventoryAfter := r.inventory
    options := r.options }

/-- The persistence effect of one client turn on the server state: the
fire-and-forget saveTurn call followed, when the response signals game over,
by the fire-and-forget status patch. The two calls are independent, so the
patch runs even if the save was rejected. -/
def applyTurnResult (s : SessionState) (action : String) (r : TurnResponse) :
    SessionState :=
  let s1 := saveTurnRoute s (turnDataOfResponse action r)
  if r.game_over then
    patchRoute s1
      { status := some Status.completed, endingType := some (derivedEnding r) }
  else s1

/-- A class entry of the CLASSES table in game-constants.ts (the stat fields
used by character creation). -/
structure ClassDef where
  hp : Int
  items : List String
deriving DecidableEq

/-- The CLASSES table from src/client/src/lib/game-constants.ts. -/
def CLASSES : String → Option ClassDef := fun c =>
  if c = "Warrior" then some ⟨30, ["Greatsword", "Chainmail", "Potion"]⟩
  else if c = "Paladin" then some ⟨28, ["Longsword", "Shield", "Holy Symbol"]⟩
  else if c = "Barbarian" then some ⟨35, ["Greataxe", "Handaxe", "Javelins"]⟩
  else if c = "Ranger" then some ⟨26, ["Longbow", "Shortswords", "Cloak"]⟩
  else if c = "Rogue" then some ⟨20, ["Daggers", "Cloak", "Lockpicks"]⟩
  else if c = "Mage" then some ⟨16, ["Staff", "Robes", "Tome"]⟩
  else if c = "Sorcerer" then some ⟨18, ["Arcane Focus", "Dagger", "Robes"]⟩
  else if c = "Warlock" then some ⟨20, ["Dagger", "Eldritch Eye", "Leather Armor"]⟩
  else if c = "Cleric" then some ⟨24, ["Mace", "Shield", "Holy Symbol"]⟩
  else if c = "Druid" then some ⟨24, ["Scimitar", "Wooden Shield", "Holly"]⟩
  else if c = "Bard" then some ⟨22, ["Lute", "Rapier", "Dagger"]⟩
  else if c = "Monk" then some ⟨24, ["Staff", "Darts", "Meditation Beads"]⟩
  else none

/-- A stored per-IP rate-limit row (ip_rate_limits table). Dates are modeled
as day numbers, i.e. already truncated to midnight; lastResetDate is nullable
in the schema. -/
structure IpRateLimit where
  gamesStartedToday : Nat
  lastResetDate : Option Nat
deriving DecidableEq

/-- checkIpRateLimit from routes.ts with the daily limit as a parameter:
routes.ts hardcodes DAILY_GAME_LIMIT = 10 (with a TODO to restore 3) and the
earlier routes variant (src/unnamed/part_000) hardcodes 3; the algorithm is
identical. A null lastResetDate reads as the current instant, which truncates
to today. -/
def checkIpRateLimitWith (dailyLimit : Nat) (row : Option IpRateLimit)
    (today : Nat) : Bool :=
  match row with
  | none => true
  | some rl =>
      let lastReset := rl.lastResetDate.getD today
      if today > lastReset then true
      else ¬ (rl.gamesStartedToday ≥ dailyLimit)

/-- The daily limit hardcoded in src/server/routes.ts. -/
def DAILY_GAME_LIMIT : Nat := 10

/-- The daily limit hardcoded in the earlier routes variant
(src/unnamed/part_000). -/
def DAILY_GAME_LIMIT_OLD : Nat := 3

/-- POST /api/rate-limit/track for an anonymous caller: re-checks the limit,
and on success upserts the row with the new count (1 on day rollover,
stored count + 1 otherwise) and today as the reset date. Returns the row
state after the call and whether the start was allowed. -/
def trackWith (dailyLimit : Nat) (row : Option IpRateLimit) (today : Nat) :
    Option IpRateLimit × Bool :=
  if ¬ checkIpRateLimitWith dailyLimit row today then (row, false)
  else
    let lastReset := match row with
      | none => today
      | some rl => rl.lastResetDate.getD today
    let isNewDay := today > lastReset
    let newCount := if isNewDay then 1
      else (match row with
        | none => 0
        | some rl => rl.gamesStartedToday) + 1
    (some ⟨newCount, some today⟩, true)

/-- JS falsy-or on strings: `s || d` is d when s = "" and s otherwise. -/
def jsOrStr (s d : String) : String := if s = "" then d else s

/-- Quoting step of JSON.stringify for a string value. The strings this
development serializes contain no quote, backslash or control characters, for
which JSON.stringify would add escapes. -/
def jsonQuote (s : String) : String := "\"" ++ s ++ "\""

/-- JSON.stringify of an array of strings. -/
def jsonStringArray (l : List String) : String :=
  "[" ++ String.intercalate "," (l.map jsonQuote) ++ "]"

/-- JSON.stringify of a boolean. -/
def jsonBool (b : Bool) : String := if b then "true" else "false"

/-- The brace-free field list of the six chat-response fields that both
clientside serializations emit, in the shared key order narrative, hp_current,
gold, inventory, options, game_over. -/
def serializeChatBody (narrative : String) (hp gold : Int)
    (inventory options : List String) (go : Bool) : String :=
  "\"narrative\":" ++ jsonQuote narrative ++
  ",\"hp_current\":" ++ toString hp ++
  ",\"gold\":" ++ toString gold ++
  ",\"inventory\":" ++ jsonStringArray inventory ++
  ",\"options\":" ++ jsonStringArray options ++
  ",\"game_over\":" ++ jsonBool go

/-- JSON.stringify of an object with exactly the six shared chat-response
fields. -/
def serializeChatFields (narrative : String) (hp gold : Int)
    (inventory options : List String) (go : Bool) : String :=
  "\x7b" ++ serializeChatBody narrative hp gold inventory options go ++ "\x7d"

/-- The model-history text the live client stores after a turn:
JSON.stringify of the response with visual_prompt deleted. A successful
response is produced by chatResponseSchema.parse, whose key order is the
schema shape order, so deleting visual_prompt leaves narrative, hp_current,
gold, inventory, options, game_over. -/
def serializeResponseNoVP (r : TurnResponse) : String :=
  serializeChatFields r.narrative r.hp_current r.gold r.inventory r.options
    r.game_over

/-- The model-history text AdventureAPI.adventureToGameState rebuilds from a
stored turn row: same fields and key order, with game_over hardcoded to
false. -/
def serializeTurnForHistory (t : AdventureTurn) : String :=
  serializeChatFields t.narrative t.hpAfter t.goldAfter t.inventoryAfter
    t.options false

/-- The history text the client stores for the raw body it received: a
successful (schema-parsed) response and the converted 403 both carry exactly
the six fields, but the 500 fallback body keeps its leading message field -
the client deletes only visual_prompt before stringifying. -/
def serializeClientBody (r : TurnResponse) (message : Option String) : String :=
  match message with
  | none => serializeResponseNoVP r
  | some m =>
      "\x7b\"message\":" ++ jsonQuote m ++ ","
        ++ serializeChatBody r.narrative r.hp_current r.gold r.inventory
            r.options r.game_over ++ "\x7d"

/-- Client game state (GameState interface in src/unnamed/part_002). The
resume display fields lastNarrative/lastOptions/lastAction/lastImage feed the
UI only and are omitted. -/
structure GameState where
  id : Option String
  name : String
  charClass : String
  race : String
  gender : String
  customInstructions : String
  themeSeeds : String
  endgame : Option CampaignData
  characterDescription : String
  history : List HistoryEntry
  hp : Int
  gold : Int
  inventory : List String
  turn : Nat
  maxTurns : Int
deriving DecidableEq

/-- Everything the external generator receives on a chat call: the
conversation contents sent as the request contents, and the scene-state
fields the system-instruction template interpolates. -/
structure GenInput where
  customInstructions : String
  name : String
  gender : String
  race : String
  charClass : String
  characterDescription : String
  hp : Int
  gold : Int
  inventory : List String
  endgame : CampaignData
  contents : List HistoryEntry
deriving DecidableEq

/-- Role normalization in the chat route:
role === 'user' ? 'user' : 'model'. -/
def normalizeEntry (h : HistoryEntry) : HistoryEntry :=
  { role := if h.role = "user" then "user" else "model", text := h.text }

/-- The geminiHistory construction of POST /api/ai/chat: map roles; if the
result is empty, seed with the user input when that is truthy, otherwise with
the act-1 opening instruction. -/
def buildGeminiHistory (history : List HistoryEntry) (userInput : String)
    (act1 : String) : List HistoryEntry :=
  let mapped := history.map normalizeEntry
  if mapped.isEmpty then
    if userInput ≠ "" then [{ role := "user", text := userInput }]
    else [{ role := "user", text := "Begin the adventure. " ++ act1 }]
  else mapped

/-- The full generator input assembled by the chat route from the posted
context, history and userInput. -/
def genInputOf (ctx : GameState) (c : CampaignData)
    (history : List HistoryEntry) (userInput : String) : GenInput :=
  { customInstructions := ctx.customInstructions
    name := ctx.name
    gender := ctx.gender
    race := ctx.race
    charClass := ctx.charClass
    characterDescription := ctx.characterDescription
    hp := ctx.hp
    gold := ctx.gold
    inventory := ctx.inventory
    endgame := c
    contents := buildGeminiHistory history userInput c.act1 }

/-- Outcome of POST /api/ai/chat with the API key configured. -/
inductive ChatOutcome
  | limit (body : TurnResponse)
  | missingCampaign
  | ok (r : TurnResponse)
  | failure (body : TurnResponse)
deriving DecidableEq

/-- The 403 body of the turn-limit branch. -/
def limitBody (ctx : GameState) : TurnResponse :=
  { narrative := "Your free trial has ended. Sign in to continue your adventure!"
    visual_prompt := ""
    hp_current := jsOrInt ctx.hp 30
    gold := jsOrInt ctx.gold 0
    inventory := ctx.inventory
    options := []
    game_over := true }

/-- The 500 body of the catch branch: a deterministic placeholder echoing the
posted context. -/
def fallbackBody (ctx : GameState) : TurnResponse :=
  { narrative := "The mists of fate swirl around you..."
    visual_prompt := ""
    hp_current := jsOrInt ctx.hp 30
    gold := jsOrInt ctx.gold 0
    inventory := ctx.inventory
    options := ["Continue cautiously", "Rest", "Look around"]
    game_over := false }

/-- POST /api/ai/chat (API key configured). In route order: the turn-limit
check (with the JS defaults context?.turn || 0 and context?.maxTurns || 5),
then the campaign-presence check, then the generator call; a generator
failure of any kind (timeout, empty text, schema-parse throw) lands in the
catch branch, which answers 500 with the fallback body. -/
def aiChat (ctx : GameState) (history : List HistoryEntry) (userInput : String)
    (gen : GenInput → Option TurnResponse) : ChatOutcome :=
  let turnCount : Int := (ctx.turn : Int) + 1
  let maxTurns := jsOrInt ctx.maxTurns 5
  if maxTurns > 0 ∧ turnCount > maxTurns then ChatOutcome.limit (limitBody ctx)
  else
    match ctx.endgame with
    | none => ChatOutcome.missingCampaign
    | some c =>
        match gen (genInputOf ctx c history userInput) with
        | some r => ChatOutcome.ok r
        | none => ChatOutcome.failure (fallbackBody ctx)

/-- What API.chat on the client hands back to handleTurn: the response
fields plus the extra message field the raw body may carry (the 500 fallback
body keeps it; a parsed success and the client-built 403 conversion have
none). -/
inductive ChatClientResult
  | resp (r : TurnResponse) (message : Option String)
  | badRequest
deriving DecidableEq

/-- API.chat in the client game engine: a 403 is converted into a terminal
game-over response built from the local context; any other body - including
the 500 fallback - is returned as the turn response because the status is
never checked, and the fallback's message field rides along. The 400
missing-campaign body has none of the response fields and is modeled as
badRequest. -/
def apiChat (ctx : GameState) (history : List HistoryEntry)
    (userInput : String) (gen : GenInput → Option TurnResponse) :
    ChatClientResult :=
  match aiChat ctx history userInput gen with
  | ChatOutcome.ok r => ChatClientResult.resp r none
  | ChatOutcome.limit body => ChatClientResult.resp
      { narrative := jsOrStr body.narrative "Your free trial has ended."
        visual_prompt := ""
        hp_current := ctx.hp
        gold := ctx.gold
        inventory := ctx.inventory
        options := []
        game_over := true } none
  | ChatOutcome.failure body =>
      ChatClientResult.resp body (some "Failed to generate response")
  | ChatOutcome.missingCampaign => ChatClientResult.badRequest

/-- History entry with role user. -/
def userEntry (t : String) : HistoryEntry := { role := "user", text := t }

/-- History entry with role model. -/
def modelEntry (t : String) : HistoryEntry := { role := "model", text := t }

/-- The newHistory a turn starts from: the player input is appended only when
at least one turn was already played. -/
def newHistoryFor (g : GameState) (input : String) : List HistoryEntry :=
  if g.turn > 0 then g.history ++ [userEntry input] else g.history

/-- The generator input that advancing session g by one turn with the given
player input sends, when the campaign is c. -/
def advanceContext (g : GameState) (c : CampaignData) (input : String) :
    GenInput :=
  genInputOf g c (newHistoryFor g input) input

/-- GameScreen.handleTurn (src/unnamed/part_005, authenticated variant)
combined with the server effects of its fire-and-forget persistence calls:
one turn of the whole system. On a response (success, converted 403, or the
unchecked 500 fallback) the client state is overwritten from the response,
the turn counter increments, the model entry (without visual_prompt) joins
the history, and for an authenticated session with an id the turn is saved
and on game over the status patched. The badRequest branch (missing
campaign) would propagate undefined fields in JS; it is modeled as leaving
both states unchanged and every theorem below keeps the campaign present so
the branch is never taken. -/
def handleTurn (isAuthenticated : Bool) (srv : SessionState) (g : GameState)
    (input : String) (gen : GenInput → Option TurnResponse) :
    SessionState × GameState :=
  let newHistory := newHistoryFor g input
  match apiChat g newHistory input gen with
  | ChatClientResult.badRequest => (srv, g)
  | ChatClientResult.resp r msg =>
      let g' := { g with
        hp := r.hp_current
        gold := r.gold
        inventory := r.inventory
        turn := g.turn + 1
        history := newHistory ++ [modelEntry (serializeClientBody r msg)] }
      let srv' :=
        if isAuthenticated ∧ g.id.isSome then applyTurnResult srv input r
        else srv
      (srv', g')

/-- The history AdventureAPI.adventureToGameState rebuilds: for each stored
turn in ascending order, a user entry with the player action and a model
entry with the reserialized response (visual_prompt excluded, game_over
hardcoded false). -/
def reconHistory (turns : List AdventureTurn) : List HistoryEntry :=
  (turns.map fun t =>
    [userEntry t.playerAction, modelEntry (serializeTurnForHistory t)]).flatten

/-- AdventureAPI.adventureToGameState: rebuild a playable GameState from the
stored adventure and its turns. -/
def adventureToGameState (id : String) (a : Adventure)
    (turns : List AdventureTurn) : GameState :=
  { id := some id
    name := a.characterName
    charClass := a.characterClass
    race := a.characterRace
    gender := a.characterGender
    customInstructions := a.themeSeeds.getD ""
    themeSeeds := a.themeSeeds.getD ""
    endgame := a.campaignData
    characterDescription := a.characterDescription
    history := reconHistory turns
    hp := a.currentHp
    gold := a.gold
    inventory := a.inventory
    turn := a.turnCount
    maxTurns := a.maxTurns }

/-- The adventure row POST /api/adventures persists for a creation request
sent by AdventureAPI.createAdventure from a client game state: character and
campaign fields copied, turnCount 0, maxTurns forced to -1, status active. -/
def createdAdventure (uid : String) (g : GameState) : Adventure :=
  { userId := uid
    characterName := g.name
    characterRace := g.race
    characterClass := g.charClass
    characterGender := g.gender
    characterDescription := g.characterDescription
    campaignData := g.endgame
    themeSeeds := some g.themeSeeds
    currentHp := g.hp
    gold := g.gold
    inventory := g.inventory
    turnCount := 0
    maxTurns := -1
    status := Status.active
    endingType := none
    lastImage := none }

/-- Run a scripted sequence of turns: each element is the player action and
the response the generator returns for it. -/
def runScript (srv : SessionState) (g : GameState) :
    List (String × TurnResponse) → SessionState × GameState
  | [] => (srv, g)
  | (a, r) :: rest =>
      let p := handleTurn true srv g a (fun _ => some r)
      runScript p.1 p.2 rest

/-- The live history an uninterrupted client accumulates over a script,
starting at turn n: the user entry is recorded only from turn 1 on. -/
def liveHistFrom : Nat → List (String × TurnResponse) → List HistoryEntry
  | _, [] => []
  | n, (a, r) :: rest =>
      (if n > 0 then [userEntry a] else []) ++
        (modelEntry (serializeResponseNoVP r) :: liveHistFrom (n + 1) rest)

/-- The turn rows the fire-and-forget saves persist over a script starting at
turn count n. -/
def recordsFrom : Nat → List (String × TurnResponse) → List AdventureTurn
  | _, [] => []
  | n, (a, r) :: rest =>
      mkTurnRow (n + 1) (turnDataOfResponse a r) :: recordsFrom (n + 1) rest

/-- Fully interleaved history: a user and a model entry for every scripted
turn, as the resume reconstruction produces. -/
def interleaved : List (String × TurnResponse) → List HistoryEntry
  | [] => []
  | (a, r) :: rest =>
      userEntry a :: modelEntry (serializeResponseNoVP r) :: interleaved rest

/-- The multi-session persistence store: adventures and turn rows keyed by
adventure id. -/
structure Store where
  adventures : List (String × Adventure)
  turns : List (String × AdventureTurn)
deriving DecidableEq

/-- storage.getAdventure. -/
def getAdventure (st : Store) (id : String) : Option Adventure :=
  (st.adventures.find? (fun p => p.1 == id)).map (fun p => p.2)

/-- Replace the adventure stored under an id. -/
def setAdventure (st : Store) (id : String) (a : Adventure) : Store :=
  { st with
    adventures := st.adventures.map fun p => if p.1 == id then (id, a) else p }

/-- Result of the shared lookup-then-ownership guard of the adventure
routes. -/
inductive OwnedResult
  | notFound
  | forbidden
  | ok (a : Adventure)
deriving DecidableEq

/-- The guard every /api/adventures/:id route runs first: 404 when the id is
unknown, 403 when the requester is not the owner; the forbidden outcome
carries no session data by construction. -/
def getOwned (st : Store) (id requester : String) : OwnedResult :=
  match getAdventure st id with
  | none => OwnedResult.notFound
  | some a =>
      if a.userId ≠ requester then OwnedResult.forbidden else OwnedResult.ok a

/-- PATCH /api/adventures/:id at store level. -/
def storePatch (st : Store) (id requester : String) (u : PatchData) : Store :=
  match getOwned st id requester with
  | OwnedResult.ok a =>
      setAdventure st id (patchRoute { adventure := a, turns := [] } u).adventure
  | _ => st

/-- DELETE /api/adventures/:id at store level (turns cascade). -/
def storeDelete (st : Store) (id requester : String) : Store :=
  match getOwned st id requester with
  | OwnedResult.ok _ =>
      { adventures := st.adventures.filter (fun p => !(p.1 == id))
        turns := st.turns.filter (fun p => !(p.1 == id)) }
  | _ => st

/-- POST /api/adventures/:id/restart at store level. -/
def storeRestart (st : Store) (id requester : String) : Store :=
  match getOwned st id requester with
  | OwnedResult.ok a =>
      { adventures :=
          (setAdventure st id
            (restartRoute { adventure := a, turns := [] }).adventure).adventures
        turns := st.turns.filter (fun p => !(p.1 == id)) }
  | _ => st

/-- POST /api/adventures/:id/turn at store level. -/
def storeSaveTurn (st : Store) (id requester : String) (t : TurnData) :
    Store :=
  match getOwned st id requester with
  | OwnedResult.ok a =>
      if a.status ≠ Status.active then st
      else if ¬ createTurnValid t then st
      else
        let n := a.turnCount + 1
        let a' := { a with
          turnCount := n
          currentHp := t.hpAfter
          gold := t.goldAfter
          inventory := t.inventoryAfter }
        { adventures := (setAdventure st id a').adventures
          turns := st.turns ++ [(id, mkTurnRow n t)] }
  | _ => st

/-- The persistence step of POST /api/ai/image when an adventureId is posted:
storage.updateAdventure(adventureId, lastImage) with no authentication and no
ownership check (the route comment says so explicitly). -/
def storeImageSave (st : Store) (id img : String) : Store :=
  match getAdventure st id with
  | none => st
  | some a => setAdventure st id { a with lastImage := some img }

/-- The session-mutating operations of the HTTP surface, each tagged with the
authenticated requester it carries - the image save carries none. -/
inductive StoreOp
  | patch (id requester : String) (u : PatchData)
  | del (id requester : String)
  | restart (id requester : String)
  | saveTurn (id requester : String) (t : TurnData)
  | imageSave (id img : String)

/-- The authenticated requester of a store operation, if any. -/
def StoreOp.requesterOf : StoreOp → Option String
  | StoreOp.patch _ r _ => some r
  | StoreOp.del _ r => some r
  | StoreOp.restart _ r => some r
  | StoreOp.saveTurn _ r _ => some r
  | StoreOp.imageSave _ _ => none

/-- Dispatch of the store operations. -/
def applyStoreOp : StoreOp → Store → Store
  | StoreOp.patch id r u, st => storePatch st id r u
  | StoreOp.del id r, st => storeDelete st id r
  | StoreOp.restart id r, st => storeRestart st id r
  | StoreOp.saveTurn id r t, st => storeSaveTurn st id r t
  | StoreOp.imageSave id img, st => storeImageSave st id img

/-- JSON values as the generator can return them; numbers are exact
rationals, as the distinction that matters here is integer versus
non-integer, not floating-point representation. -/
inductive Json
  | null
  | bool (b : Bool)
  | num (q : Rat)
  | str (s : String)
  | arr (elems : List Json)
  | obj (fields : List (String × Json))

/-- Object field lookup. -/
def Json.getField : Json → String → Option Json
  | Json.obj fields, k => (fields.find? (fun p => p.1 == k)).map (fun p => p.2)
  | _, _ => none

/-- Whether a JSON value is an object. -/
def Json.isObj : Json → Bool
  | Json.obj _ => true
  | _ => false

/-- z.string() on an (optional) field. -/
def asString : Option Json → Option String
  | some (Json.str s) => some s
  | _ => none

/-- z.number() on an (optional) field: any number, integrality not
checked. -/
def asNumber : Option Json → Option Rat
  | some (Json.num q) => some q
  | _ => none

/-- z.boolean() on an (optional) field. -/
def asBool : Option Json → Option Bool
  | some (Json.bool b) => some b
  | _ => none

/-- z.array(z.string()) on an (optional) field: a list of strings of any
length. -/
def asStringList : Option Json → Option (List String)
  | some (Json.arr xs) =>
      xs.mapM fun x => match x with
        | Json.str s => some s
        | _ => none
  | _ => none

/-- The value chatResponseSchema.parse returns on success. -/
structure ChatResponseData where
  narrative : String
  visual_prompt : String
  hp_current : Rat
  gold : Rat
  inventory : List String
  options : List String
  game_over : Bool
deriving DecidableEq

/-- chatResponseSchema.parse: succeeds exactly when the value is an object
whose seven required fields have the declared primitive types; unknown keys
are stripped, no other constraint is applied. -/
def decodeChatResponse (j : Json) : Option ChatResponseData :=
  if j.isObj then do
    let n ← asString (j.getField "narrative")
    let v ← asString (j.getField "visual_prompt")
    let hp ← asNumber (j.getField "hp_current")
    let gl ← asNumber (j.getField "gold")
    let inv ← asStringList (j.getField "inventory")
    let opts ← asStringList (j.getField "options")
    let go ← asBool (j.getField "game_over")
    pure ⟨n, v, hp, gl, inv, opts, go⟩
  else none

/-- Structural restatement of what the zod schema checks, used to
characterize the decoder. -/
def chatFieldsOk (j : Json) : Bool :=
  j.isObj &&
  (asString (j.getField "narrative")).isSome &&
  (asString (j.getField "visual_prompt")).isSome &&
  (asNumber (j.getField "hp_current")).isSome &&
  (asNumber (j.getField "gold")).isSome &&
  (asStringList (j.getField "inventory")).isSome &&
  (asStringList (j.getField "options")).isSome &&
  (asBool (j.getField "game_over")).isSome

/-- Whether a number field holds an integer. -/
def isIntegerJson : Option Json → Bool
  | some (Json.num q) => q.den == 1
  | _ => false

/-- Modelled from the spec: the response contract claim C10 states, with
integral hp_current and gold and the options-length discipline (length 0 when
game_over, length 3 otherwise). Defined from the claim's words to be compared
against the schema the code actually enforces. -/
def specTurnResponseShape (j : Json) : Bool :=
  j.isObj &&
  (asString (j.getField "narrative")).isSome &&
  (asString (j.getField "visual_prompt")).isSome &&
  isIntegerJson (j.getField "hp_current") &&
  isIntegerJson (j.getField "gold") &&
  (asStringList (j.getField "inventory")).isSome &&
  (match asStringList (j.getField "options"), asBool (j.getField "game_over") with
   | some opts, some go =>
       if go then opts.length == 0 else opts.length == 3
   | _, _ => false)

/-- Synchronization of a persisted session with the client state of its
authenticated owner mid-play: active, counters and derived state agree, the
client has a session id, unlimited turns, and a campaign. -/
def inSync (srv : SessionState) (g : GameState) : Prop :=
  srv.adventure.status = Status.active ∧
  srv.adventure.turnCount = g.turn ∧
  srv.adventure.currentHp = g.hp ∧
  srv.adventure.gold = g.gold ∧
  srv.adventure.inventory = g.inventory ∧
  g.maxTurns = -1 ∧
  g.id.isSome = true ∧
  (∃ c, g.endgame = some c)

/-- A script of playable turns: nonempty actions, nonempty narratives and no
game over (game over would complete the session and end the run). -/
def scriptOk (s : List (String × TurnResponse)) : Prop :=
  ∀ p ∈ s, p.1 ≠ "" ∧ p.2.narrative ≠ "" ∧ p.2.game_over = false

/-- Every entry of the list has a literal user or model role. -/
def rolesOk (l : List HistoryEntry) : Prop :=
  ∀ e ∈ l, e.role = "user" ∨ e.role = "model"

/-- The generator context advancing session g by one turn would send: the
chat route reads the campaign from the posted context and builds the input
from it, the scene-state fields and the history with the new player input
appended. -/
def advanceContextOf (g : GameState) (input : String) : Option GenInput :=
  match g.endgame with
  | none => none
  | some c => some (genInputOf g c (newHistoryFor g input) input)

/-- Fixture: a small campaign blob. -/
def exCampaign : CampaignData :=
  { title := "T"
    act1 := "A1"
    act2 := "A2"
    act3 := "A3"
    possible_endings := ["E1", "E2", "E3"]
    world_backstory := "W"
    character_backstory := "B" }

/-- Fixture: a freshly created authenticated Warrior game state (class
starting values from CLASSES: hp 30, gold 10, the Warrior loadout). -/
def exWarriorState : GameState :=
  { id := some "adv1"
    name := "Thorgar"
    charClass := "Warrior"
    race := "Human"
    gender := "Male"
    customInstructions := "Theme: Abyss"
    themeSeeds := "Abyss"
    endgame := some exCampaign
    characterDescription := "D"
    history := []
    hp := 30
    gold := 10
    inventory := ["Greatsword", "Chainmail", "Potion"]
    turn := 0
    maxTurns := -1 }

/-- Fixture: the persisted session created for the Warrior state. -/
def exWarriorSession : SessionState :=
  { adventure := createdAdventure "u1" exWarriorState, turns := [] }

/-- Fixture: a freshly created authenticated Mage game state (class starting
values from CLASSES: hp 16, the Mage loadout). -/
def exMageState : GameState :=
  { id := some "adv2"
    name := "Elara"
    charClass := "Mage"
    race := "Elf"
    gender := "Female"
    customInstructions := "Theme: Frost"
    themeSeeds := "Frost"
    endgame := some exCampaign
    characterDescription := "D2"
    history := []
    hp := 16
    gold := 10
    inventory := ["Staff", "Robes", "Tome"]
    turn := 0
    maxTurns := -1 }

/-- Fixture: the persisted session created for the Mage state. -/
def exMageSession : SessionState :=
  { adventure := createdAdventure "u1" exMageState, turns := [] }

/-- Fixture: an ordinary successful turn response. -/
def exResp1 : TurnResponse :=
  { narrative := "N1"
    visual_prompt := "V1"
    hp_current := 25
    gold := 15
    inventory := ["Greatsword", "Potion"]
    options := ["a", "b", "c"]
    game_over := false }

/-- Fixture: a lethal game-over response (hp 0). -/
def exDeathResp : TurnResponse :=
  { narrative := "N2"
    visual_prompt := "V2"
    hp_current := 0
    gold := 15
    inventory := []
    options := []
    game_over := true }

/-- Fixture: a shape-conforming response whose narrative is the empty
string. -/
def exEmptyNarrResp : TurnResponse :=
  { narrative := ""
    visual_prompt := "V"
    hp_current := 20
    gold := 5
    inventory := []
    options := ["a", "b", "c"]
    game_over := false }

/-- Fixture: a response carrying negative gold. -/
def exNegGoldResp : TurnResponse :=
  { narrative := "NC"
    visual_prompt := "V"
    hp_current := 20
    gold := -5
    inventory := []
    options := ["a", "b", "c"]
    game_over := false }

/-- Fixture: an anonymous session standing exactly at its turn limit
(turn 5 of maxTurns 5). -/
def exAnonState : GameState :=
  { id := none
    name := "Kaelen"
    charClass := "Rogue"
    race := "Elf"
    gender := "Female"
    customInstructions := "Theme: Blades"
    themeSeeds := "Blades"
    endgame := some exCampaign
    characterDescription := "D3"
    history := [modelEntry "M1"]
    hp := 20
    gold := 7
    inventory := ["Daggers"]
    turn := 5
    maxTurns := 5 }

/-- Fixture: a store holding one adventure owned by alice. -/
def exStore : Store :=
  { adventures := [("a1", createdAdventure "alice" exWarriorState)]
    turns := [] }

/-- Fixture: a generator response object with all seven fields well typed but
only two options while game_over is false. -/
def exBadOptionsJson : Json :=
  Json.obj
    [("narrative", Json.str "N"),
     ("visual_prompt", Json.str "V"),
     ("hp_current", Json.num 10),
     ("gold", Json.num 5),
     ("inventory", Json.arr []),
     ("options", Json.arr [Json.str "a", Json.str "b"]),
     ("game_over", Json.bool false)]

/-- Fixture: the rational 1/2, built directly so that its fields reduce. -/
def halfRat : Rat := ⟨1, 2, by decide, Nat.coprime_one_left 2⟩

/-- Fixture: a generator response object with a non-integer hp_current and
three options. -/
def exFracHpJson : Json :=
  Json.obj
    [("narrative", Json.str "N"),
     ("visual_prompt", Json.str "V"),
     ("hp_current", Json.num halfRat),
     ("gold", Json.num 5),
     ("inventory", Json.arr []),
     ("options", Json.arr [Json.str "a", Json.str "b", Json.str "c"]),
     ("game_over", Json.bool false)]

/-- The hp a scripted run ends with, starting from h0. -/
def finalHp (h0 : Int) : List (String × TurnResponse) → Int
  | [] => h0
  | (_, r) :: rest => finalHp r.hp_current rest

/-- The gold a scripted run ends with, starting from g0. -/
def finalGold (g0 : Int) : List (String × TurnResponse) → Int
  | [] => g0
  | (_, r) :: rest => finalGold r.gold rest

/-- The inventory a scripted run ends with, starting from i0. -/
def finalInv (i0 : List String) : List (String × TurnResponse) → List String
  | [] => i0
  | (_, r) :: rest => finalInv r.inventory rest

/-! Helper lemmas. -/

theorem numberedFrom_append (t : AdventureTurn) (ts : List AdventureTurn) :
    ∀ n, numberedFrom n (ts ++ [t]) =
      (numberedFrom n ts && decide (t.turnNumber = n + ts.length + 1)) := by
  induction ts with
  | nil => intro n; simp [numberedFrom]
  | cons t' ts ih =>
      intro n
      show (decide (t'.turnNumber = n + 1) && numberedFrom (n + 1) (ts ++ [t])) = _
      rw [ih (n + 1)]
      have h : n + 1 + ts.length + 1 = n + (ts.length + 1) + 1 := by omega
      rw [h, ← Bool.and_assoc]
      rfl

theorem getLast?_snoc (l : List AdventureTurn) (a : AdventureTurn) :
    (l ++ [a]).getLast? = some a := by
  rw [List.getLast?_append_cons l a []]
  rfl

theorem saveTurnRoute_eq (s : SessionState) (t : TurnData)
    (hs : s.adventure.status = Status.active) (hv : createTurnValid t = true) :
    saveTurnRoute s t =
      { adventure := { s.adventure with
          turnCount := s.adventure.turnCount + 1
          currentHp := t.hpAfter
          gold := t.goldAfter
          inventory := t.inventoryAfter }
        turns := s.turns ++ [mkTurnRow (s.adventure.turnCount + 1) t] } := by
  simp [saveTurnRoute, hs, hv]

/-! Claim C8 (restart). -/

/-- C8 counterexample: restart does not restore the session's starting
values. A Mage session is created with the class starting hp 16 and loadout
Staff/Robes/Tome (CLASSES table), but restart resets hp to the constant 30
and the inventory to empty. -/
theorem c8_counterexample :
    (CLASSES "Mage").map (fun cd => cd.hp) = some 16 ∧
    (CLASSES "Mage").map (fun cd => cd.items) = some ["Staff", "Robes", "Tome"] ∧
    exMageSession.adventure.currentHp = 16 ∧
    exMageSession.adventure.inventory = ["Staff", "Robes", "Tome"] ∧
    (restartRoute exMageSession).adventure.currentHp = 30 ∧
    (30 : Int) ≠ 16 ∧
    (restartRoute exMageSession).adventure.inventory = [] := by
  decide

/-- C8 as amended: restarting deletes all turn rows, resets turn count to 0,
sets hp to the fixed constant 30, gold to 10 and the inventory to empty
(fixed reset values, not the class starting ones), sets status active and
ending null, and leaves campaign data and character identity unchanged. -/
theorem c8_restart_effect (s : SessionState) :
    (restartRoute s).turns = [] ∧
    (restartRoute s).adventure.turnCount = 0 ∧
    (restartRoute s).adventure.currentHp = 30 ∧
    (restartRoute s).adventure.gold = 10 ∧
    (restartRoute s).adventure.inventory = [] ∧
    (restartRoute s).adventure.status = Status.active ∧
    (restartRoute s).adventure.endingType = none ∧
    (restartRoute s).adventure.campaignData = s.adventure.campaignData ∧
    (restartRoute s).adventure.characterName = s.adventure.characterName ∧
    (restartRoute s).adventure.characterRace = s.adventure.characterRace ∧
    (restartRoute s).adventure.characterClass = s.adventure.characterClass ∧
    (restartRoute s).adventure.characterGender = s.adventure.characterGender ∧
    (restartRoute s).adventure.characterDescription
      = s.adventure.characterDescription ∧
    (restartRoute s).adventure.themeSeeds = s.adventure.themeSeeds := by
  simp [restartRoute]

/-! Claim C9 (gold never negative / clamping). -/

/-- C9 counterexample: no clamping exists; a generator response with gold -5
applied to an active session leaves the stored gold at -5 < 0. -/
theorem c9_counterexample :
    exWarriorSession.adventure.status = Status.active ∧
    (applyTurnResult exWarriorSession "Open the chest" exNegGoldResp).adventure.gold
      = -5 ∧
    ¬ (0 : Int) ≤
      (applyTurnResult exWarriorSession "Open the chest" exNegGoldResp).adventure.gold := by
  decide

/-- C9 as amended: the generator's gold value is applied to the session
verbatim, negative values included; no clamping happens anywhere on the
path. -/
theorem c9_gold_passthrough (s : SessionState) (action : String)
    (r : TurnResponse) (hs : s.adventure.status = Status.active)
    (ha : action ≠ "") (hn : r.narrative ≠ "") :
    (applyTurnResult s action r).adventure.gold = r.gold := by
  have hv : createTurnValid (turnDataOfResponse action r) = true := by
    simp [createTurnValid, turnDataOfResponse, ha, hn]
  unfold applyTurnResult
  rw [saveTurnRoute_eq s _ hs hv]
  cases hgo : r.game_over <;> simp [patchRoute, turnDataOfResponse]

/-- C9 witness: the amended theorem applied to the negative-gold fixture. -/
theorem c9_gold_passthrough_witness :
    (applyTurnResult exWarriorSession "Open the chest" exNegGoldResp).adventure.gold
      = exNegGoldResp.gold :=
  c9_gold_passthrough exWarriorSession "Open the chest" exNegGoldResp rfl
    (by decide) (by decide)

/-! Claim C2 (effect of applying a turn result). -/

/-- C2 counterexample: a generator result conforming to the turn-response
shape but with an empty narrative is rejected by the turn-save validation
(createTurnSchema requires min length 1), so applying it changes nothing:
turn_count does not increment and no record is appended, contrary to the
claim's unconditional effect. -/
theorem c2_counterexample :
    exWarriorSession.adventure.status = Status.active ∧
    applyTurnResult exWarriorSession "Attack" exEmptyNarrResp = exWarriorSession ∧
    (applyTurnResult exWarriorSession "Attack" exEmptyNarrResp).adventure.turnCount
      ≠ exWarriorSession.adventure.turnCount + 1 := by
  decide

/-- C2 as amended: for an active session and a shape-conforming result with a
nonempty narrative (and a nonempty player action), applying the turn
increments turn_count by exactly 1, wholly replaces hp, gold and inventory by
the result's snapshot, appends exactly one turn record numbered with the new
turn_count, and on game over sets status completed with ending death iff
hp_current <= 0, else victory. -/
theorem c2_apply_turn_result (s : SessionState) (action : String)
    (r : TurnResponse) (hs : s.adventure.status = Status.active)
    (ha : action ≠ "") (hn : r.narrative ≠ "") :
    (applyTurnResult s action r).adventure.turnCount
        = s.adventure.turnCount + 1 ∧
    (applyTurnResult s action r).adventure.currentHp = r.hp_current ∧
    (applyTurnResult s action r).adventure.gold = r.gold ∧
    (applyTurnResult s action r).adventure.inventory = r.inventory ∧
    (applyTurnResult s action r).turns
        = s.turns
            ++ [mkTurnRow (s.adventure.turnCount + 1) (turnDataOfResponse action r)] ∧
    (mkTurnRow (s.adventure.turnCount + 1) (turnDataOfResponse action r)).turnNumber
        = (applyTurnResult s action r).adventure.turnCount ∧
    (r.game_over = true →
      (applyTurnResult s action r).adventure.status = Status.completed ∧
      (applyTurnResult s action r).adventure.endingType
        = some (if r.hp_current ≤ 0 then EndingType.death else EndingType.victory)) := by
  have hv : createTurnValid (turnDataOfResponse action r) = true := by
    simp [createTurnValid, turnDataOfResponse, ha, hn]
  unfold applyTurnResult
  rw [saveTurnRoute_eq s _ hs hv]
  cases hgo : r.game_over <;>
    simp [patchRoute, mkTurnRow, turnDataOfResponse, derivedEnding]

/-- C2 witness: the amended theorem applied to the death fixture (game over
with hp 0 yields status completed, ending death, turn 1 recorded). -/
theorem c2_apply_turn_result_witness :
    (applyTurnResult exWarriorSession "Attack" exDeathResp).adventure.turnCount
        = exWarriorSession.adventure.turnCount + 1 ∧
    (applyTurnResult exWarriorSession "Attack" exDeathResp).adventure.currentHp
        = exDeathResp.hp_current ∧
    (applyTurnResult exWarriorSession "Attack" exDeathResp).adventure.gold
        = exDeathResp.gold ∧
    (applyTurnResult exWarriorSession "Attack" exDeathResp).adventure.inventory
        = exDeathResp.inventory ∧
    (applyTurnResult exWarriorSession "Attack" exDeathResp).turns
        = exWarriorSession.turns
            ++ [mkTurnRow (exWarriorSession.adventure.turnCount + 1)
                  (turnDataOfResponse "Attack" exDeathResp)] ∧
    (mkTurnRow (exWarriorSession.adventure.turnCount + 1)
        (turnDataOfResponse "Attack" exDeathResp)).turnNumber
        = (applyTurnResult exWarriorSession "Attack" exDeathResp).adventure.turnCount ∧
    (exDeathResp.game_over = true →
      (applyTurnResult exWarriorSession "Attack" exDeathResp).adventure.status
          = Status.completed ∧
      (applyTurnResult exWarriorSession "Attack" exDeathResp).adventure.endingType
          = some (if exDeathResp.hp_current ≤ 0 then EndingType.death
              else EndingType.victory)) :=
  c2_apply_turn_result exWarriorSession "Attack" exDeathResp rfl (by decide)
    (by decide)

/-! Claim C1 (turn-count/history invariant after every operation). -/

/-- C1 counterexample: the generic adventure update (PATCH) can overwrite
currentHp independently of the turn records. After one applied turn the
invariant holds, and a patch setting currentHp to 5 breaks the snapshot half
of the invariant. -/
theorem c1_counterexample :
    sessionInv (applyTurnResult exWarriorSession "Attack" exResp1) = true ∧
    sessionInv
      (applyOp (Op.patch { currentHp := some 5 })
        (applyTurnResult exWarriorSession "Attack" exResp1)) = false := by
  decide

/-- C1 as amended: for every session whose turn_count matches its records
(numbered 1..turn_count), every operation preserves that count/numbering
half - including operations run after a patch has already broken the
snapshot half; restart re-establishes the full invariant including the last
record's snapshot equality unconditionally, and a turn-save preserves the
full invariant. Only the generic update can break the snapshot half. -/
theorem c1_turn_history_invariant (op : Op) (s : SessionState)
    (h : countInv s = true) :
    countInv (applyOp op s) = true ∧
    (op = Op.restart → sessionInv (applyOp op s) = true) ∧
    (∀ t, op = Op.saveTurn t → sessionInv s = true →
      sessionInv (applyOp op s) = true) := by
  have hcount : s.adventure.turnCount = s.turns.length := by
    have hc := h
    simp only [countInv, Bool.and_eq_true, decide_eq_true_eq] at hc
    exact hc.1
  have hnum : numberedFrom 0 s.turns = true := by
    simp only [countInv, Bool.and_eq_true] at h
    exact h.2
  cases op with
  | restart =>
      refine ⟨?_, ?_, ?_⟩
      · simp [applyOp, restartRoute, countInv, numberedFrom]
      · intro _
        simp [applyOp, restartRoute, sessionInv, countInv, numberedFrom,
          snapshotOk]
      · intro t ht
        exact nomatch ht
  | patch u =>
      refine ⟨?_, ?_, ?_⟩
      · simp [applyOp, patchRoute, countInv, hcount, hnum]
      · intro ht
        exact nomatch ht
      · intro t ht
        exact nomatch ht
  | saveTurn t =>
      by_cases hs : s.adventure.status = Status.active
      · by_cases hv : createTurnValid t = true
        · have key : sessionInv (applyOp (Op.saveTurn t) s) = true := by
            simp only [applyOp]
            rw [saveTurnRoute_eq s t hs hv]
            simp only [sessionInv, countInv, snapshotOk, Bool.and_eq_true,
              decide_eq_true_eq]
            refine ⟨⟨?_, ?_⟩, ?_⟩
            · simp [hcount]
            · rw [numberedFrom_append]
              simp [hnum, mkTurnRow, hcount]
            · rw [getLast?_snoc]
              simp [mkTurnRow]
          refine ⟨?_, ?_, ?_⟩
          · have hk := key
            simp only [sessionInv, Bool.and_eq_true] at hk
            exact hk.1
          · intro ht
            exact nomatch ht
          · intro t' ht _
            cases ht
            exact key
        · have hfix : saveTurnRoute s t = s := by
            simp [saveTurnRoute, hv]
          refine ⟨?_, ?_, ?_⟩
          · simpa only [applyOp, hfix] using h
          · intro ht
            exact nomatch ht
          · intro t' ht hfull
            cases ht
            simpa only [applyOp, hfix] using hfull
      · have hfix : saveTurnRoute s t = s := by
          simp [saveTurnRoute, hs]
        refine ⟨?_, ?_, ?_⟩
        · simpa only [applyOp, hfix] using h
        · intro ht
          exact nomatch ht
        · intro t' ht hfull
          cases ht
          simpa only [applyOp, hfix] using hfull

/-- C1 witness: the amended theorem applied to a concrete consistent session
and a turn-save operation. -/
theorem c1_turn_history_invariant_witness :
    countInv (applyOp (Op.saveTurn (turnDataOfResponse "Attack" exResp1))
        exWarriorSession) = true ∧
    sessionInv (applyOp (Op.saveTurn (turnDataOfResponse "Attack" exResp1))
        exWarriorSession) = true := by
  have h := c1_turn_history_invariant
    (Op.saveTurn (turnDataOfResponse "Attack" exResp1)) exWarriorSession
    (by decide)
  exact ⟨h.1, h.2.2 _ rfl (by decide)⟩

theorem jsOrInt_of_ne (x d : Int) (h : x ≠ 0) : jsOrInt x d = x := by
  simp [jsOrInt, h]

theorem jsOrInt_zero (x : Int) : jsOrInt x 0 = x := by
  by_cases h : x = 0 <;> simp [jsOrInt, h]

/-! Claim C3 (turn limit). -/

/-- C3 counterexample: for an anonymous session standing at its limit
(turn 5 of 5), the attempt is rejected before the generator runs and no turn
record exists, but the client applies the converted failure as a game-over
turn: the session's turn counter increments to 6, contrary to the claim that
turn_count is not incremented. -/
theorem c3_counterexample :
    exAnonState.maxTurns > 0 ∧
    ((exAnonState.turn : Int) + 1 > exAnonState.maxTurns) ∧
    (handleTurn false exWarriorSession exAnonState "Go" (fun _ => none)).1
      = exWarriorSession ∧
    (handleTurn false exWarriorSession exAnonState "Go" (fun _ => none)).2.turn
      = exAnonState.turn + 1 := by
  decide

/-- C3 as amended: when max_turns > 0 and turn_count + 1 > max_turns, the
chat endpoint fails with the turn-limit error before the generator is called
(the outcome is the same for every generator), and no persisted session data
changes; however the client converts the failure into a terminal game-over
display and increments its in-memory turn counter by one, leaving hp, gold
and inventory unchanged. -/
theorem c3_turn_limit (srv : SessionState) (g : GameState) (input : String)
    (gen gen' : GenInput → Option TurnResponse)
    (hm : g.maxTurns > 0) (hlim : (g.turn : Int) + 1 > g.maxTurns) :
    aiChat g (newHistoryFor g input) input gen = ChatOutcome.limit (limitBody g) ∧
    aiChat g (newHistoryFor g input) input gen
      = aiChat g (newHistoryFor g input) input gen' ∧
    (handleTurn false srv g input gen).1 = srv ∧
    (handleTurn false srv g input gen).2.turn = g.turn + 1 ∧
    (handleTurn false srv g input gen).2.hp = g.hp ∧
    (handleTurn false srv g input gen).2.gold = g.gold ∧
    (handleTurn false srv g input gen).2.inventory = g.inventory := by
  have hne : g.maxTurns ≠ 0 := by omega
  have hcond : jsOrInt g.maxTurns 5 > 0 ∧
      (g.turn : Int) + 1 > jsOrInt g.maxTurns 5 := by
    rw [jsOrInt_of_ne _ _ hne]
    exact ⟨hm, hlim⟩
  have hchat : ∀ gg : GenInput → Option TurnResponse,
      aiChat g (newHistoryFor g input) input gg
        = ChatOutcome.limit (limitBody g) := by
    intro gg
    unfold aiChat
    rw [if_pos hcond]
  refine ⟨hchat gen, by rw [hchat gen, hchat gen'], ?_, ?_, ?_, ?_, ?_⟩ <;>
    · simp only [handleTurn, apiChat, hchat gen]
      try simp

/-- C3 witness: the amended theorem applied at the at-limit anonymous
fixture, with two different generators. -/
theorem c3_turn_limit_witness :
    aiChat exAnonState (newHistoryFor exAnonState "Go") "Go" (fun _ => none)
      = ChatOutcome.limit (limitBody exAnonState) ∧
    aiChat exAnonState (newHistoryFor exAnonState "Go") "Go" (fun _ => none)
      = aiChat exAnonState (newHistoryFor exAnonState "Go") "Go"
          (fun _ => some exResp1) ∧
    (handleTurn false exWarriorSession exAnonState "Go" (fun _ => none)).1
      = exWarriorSession ∧
    (handleTurn false exWarriorSession exAnonState "Go" (fun _ => none)).2.turn
      = exAnonState.turn + 1 ∧
    (handleTurn false exWarriorSession exAnonState "Go" (fun _ => none)).2.hp
      = exAnonState.hp ∧
    (handleTurn false exWarriorSession exAnonState "Go" (fun _ => none)).2.gold
      = exAnonState.gold ∧
    (handleTurn false exWarriorSession exAnonState "Go"
        (fun _ => none)).2.inventory
      = exAnonState.inventory :=
  c3_turn_limit exWarriorSession exAnonState "Go" (fun _ => none)
    (fun _ => some exResp1) (by decide) (by decide)

/-! Claim C4 (generator failure leaves the session unchanged). -/

/-- C4 counterexample: with a failing generator, the attempt on a fresh
authenticated session persists the fabricated fallback as a real turn:
turn_count increments and a record with the fallback narrative is
appended, contrary to the claim that the turn records stay unchanged. -/
theorem c4_counterexample :
    (handleTurn true exWarriorSession exWarriorState "Look around"
        (fun _ => none)).1.adventure.turnCount
      = exWarriorSession.adventure.turnCount + 1 ∧
    ((handleTurn true exWarriorSession exWarriorState "Look around"
        (fun _ => none)).1.turns.map (fun t => t.narrative))
      = ["The mists of fate swirl around you..."] := by
  decide

/-- C4 as amended: on generator failure the server answers with a typed
failure (HTTP 500) carrying a deterministic fallback body whose gold and
inventory echo the pre-call context and whose hp echoes the pre-call hp
except that a pre-call hp of 0 is turned into the JS-falsy default 30
(context.hp || 30); the client never checks the status and applies the
fallback as a normal turn, so gold and inventory stay at their pre-call
values, hp stays unless it was 0 (then it becomes 30), turn_count increments
by one and exactly one fallback turn record is appended. -/
theorem c4_generator_failure (srv : SessionState) (g : GameState)
    (input : String) (c : CampaignData)
    (hhp : srv.adventure.currentHp = g.hp)
    (hgold : srv.adventure.gold = g.gold)
    (hinv : srv.adventure.inventory = g.inventory)
    (hact : srv.adventure.status = Status.active) (hin : input ≠ "")
    (hc : g.endgame = some c) (hmax : g.maxTurns = -1)
    (hid : g.id.isSome = true) :
    aiChat g (newHistoryFor g input) input (fun _ => none)
      = ChatOutcome.failure (fallbackBody g) ∧
    (handleTurn true srv g input (fun _ => none)).1.adventure.currentHp
      = jsOrInt srv.adventure.currentHp 30 ∧
    (handleTurn true srv g input (fun _ => none)).1.adventure.gold
      = srv.adventure.gold ∧
    (handleTurn true srv g input (fun _ => none)).1.adventure.inventory
      = srv.adventure.inventory ∧
    (handleTurn true srv g input (fun _ => none)).1.adventure.turnCount
      = srv.adventure.turnCount + 1 ∧
    (handleTurn true srv g input (fun _ => none)).1.turns
      = srv.turns
          ++ [mkTurnRow (srv.adventure.turnCount + 1)
                (turnDataOfResponse input (fallbackBody g))] ∧
    (handleTurn true srv g input (fun _ => none)).2.turn = g.turn + 1 := by
  have hchat : aiChat g (newHistoryFor g input) input (fun _ => none)
      = ChatOutcome.failure (fallbackBody g) := by
    unfold aiChat
    rw [if_neg ?hneg]
    · rw [hc]
    case hneg =>
      rw [hmax]
      norm_num [jsOrInt]
  have hvalid : createTurnValid (turnDataOfResponse input (fallbackBody g))
      = true := by
    simp [createTurnValid, turnDataOfResponse, fallbackBody, hin]
  have happly := saveTurnRoute_eq srv (turnDataOfResponse input (fallbackBody g))
    hact hvalid
  have hmain : handleTurn true srv g input (fun _ => none)
      = (saveTurnRoute srv (turnDataOfResponse input (fallbackBody g)),
         { g with
            hp := (fallbackBody g).hp_current
            gold := (fallbackBody g).gold
            inventory := (fallbackBody g).inventory
            turn := g.turn + 1
            history := newHistoryFor g input
              ++ [modelEntry (serializeClientBody (fallbackBody g)
                    (some "Failed to generate response"))] }) := by
    simp only [handleTurn, apiChat, hchat]
    simp [hid, applyTurnResult, fallbackBody]
  refine ⟨hchat, ?_, ?_, ?_, ?_, ?_, ?_⟩ <;>
    · rw [hmain]
      try rw [happly]
      try simp [turnDataOfResponse, fallbackBody, jsOrInt_zero, hhp, hgold, hinv]

/-- C4 witness: the amended theorem applied at the fresh Warrior fixture. -/
theorem c4_generator_failure_witness :
    aiChat exWarriorState (newHistoryFor exWarriorState "Look around")
        "Look around" (fun _ => none)
      = ChatOutcome.failure (fallbackBody exWarriorState) ∧
    (handleTurn true exWarriorSession exWarriorState "Look around"
        (fun _ => none)).1.adventure.currentHp
      = jsOrInt exWarriorSession.adventure.currentHp 30 ∧
    (handleTurn true exWarriorSession exWarriorState "Look around"
        (fun _ => none)).1.adventure.gold
      = exWarriorSession.adventure.gold ∧
    (handleTurn true exWarriorSession exWarriorState "Look around"
        (fun _ => none)).1.adventure.inventory
      = exWarriorSession.adventure.inventory ∧
    (handleTurn true exWarriorSession exWarriorState "Look around"
        (fun _ => none)).1.adventure.turnCount
      = exWarriorSession.adventure.turnCount + 1 ∧
    (handleTurn true exWarriorSession exWarriorState "Look around"
        (fun _ => none)).1.turns
      = exWarriorSession.turns
          ++ [mkTurnRow (exWarriorSession.adventure.turnCount + 1)
                (turnDataOfResponse "Look around"
                  (fallbackBody exWarriorState))] ∧
    (handleTurn true exWarriorSession exWarriorState "Look around"
        (fun _ => none)).2.turn = exWarriorState.turn + 1 :=
  c4_generator_failure exWarriorSession exWarriorState "Look around" exCampaign
    rfl rfl rfl rfl (by decide) rfl rfl rfl

/-! Claim C6 (ownership boundary). -/

/-- C6 counterexample: the image-save path mutates a session although it
carries no authenticated requester and performs no ownership check: saving an
image against alice's adventure changes the stored adventure. -/
theorem c6_counterexample :
    StoreOp.requesterOf (StoreOp.imageSave "a1" "IMG") = none ∧
    (getAdventure exStore "a1").map (fun a => a.userId) = some "alice" ∧
    applyStoreOp (StoreOp.imageSave "a1" "IMG") exStore ≠ exStore ∧
    (getAdventure (applyStoreOp (StoreOp.imageSave "a1" "IMG") exStore)
        "a1").map (fun a => a.lastImage)
      = some (some "IMG") := by
  decide

/-- C6 as amended: the lookup guard answers NotFound for an unknown id and
Forbidden (carrying no session data) when the requester is not the owner, and
each of the guarded mutating operations - patch, delete, restart, turn save -
leaves the store unchanged in both cases; only the image save mutates without
the check. -/
theorem c6_ownership (st : Store) (id uid : String) :
    (getAdventure st id = none →
      getOwned st id uid = OwnedResult.notFound ∧
      (∀ u, storePatch st id uid u = st) ∧
      storeDelete st id uid = st ∧
      storeRestart st id uid = st ∧
      (∀ t, storeSaveTurn st id uid t = st)) ∧
    (∀ a, getAdventure st id = some a → a.userId ≠ uid →
      getOwned st id uid = OwnedResult.forbidden ∧
      (∀ u, storePatch st id uid u = st) ∧
      storeDelete st id uid = st ∧
      storeRestart st id uid = st ∧
      (∀ t, storeSaveTurn st id uid t = st)) := by
  constructor
  · intro hnone
    have hown : getOwned st id uid = OwnedResult.notFound := by
      simp [getOwned, hnone]
    exact ⟨hown, fun u => by simp [storePatch, hown],
      by simp [storeDelete, hown], by simp [storeRestart, hown],
      fun t => by simp [storeSaveTurn, hown]⟩
  · intro a ha hne
    have hown : getOwned st id uid = OwnedResult.forbidden := by
      simp [getOwned, ha, hne]
    exact ⟨hown, fun u => by simp [storePatch, hown],
      by simp [storeDelete, hown], by simp [storeRestart, hown],
      fun t => by simp [storeSaveTurn, hown]⟩

/-- C6 witness: the amended theorem applied at the one-adventure store, for a
non-owning requester and for an unknown id. -/
theorem c6_ownership_witness :
    getOwned exStore "a1" "bob" = OwnedResult.forbidden ∧
    storeDelete exStore "a1" "bob" = exStore ∧
    getOwned exStore "zz" "bob" = OwnedResult.notFound ∧
    storeRestart exStore "zz" "bob" = exStore := by
  have h1 := (c6_ownership exStore "a1" "bob").2
    (createdAdventure "alice" exWarriorState) (by decide) (by decide)
  have h2 := (c6_ownership exStore "zz" "bob").1 (by decide)
  exact ⟨h1.1, h1.2.2.1, h2.1, h2.2.2.2.1⟩

/-! Claim C7 (anonymous daily rate limiting). -/

/-- C7: a session start is allowed when no counter row exists, or when the
stored reset day is strictly before today (rollover), and otherwise exactly
when the stored count is below the daily limit; and the dailyLimit = 3
scenario (the constant of the earlier routes variant): three starts from a
fresh IP succeed, the fourth is denied leaving the row unchanged, and a start
on the next day succeeds with the count reset to 1. -/
theorem c7_rate_limiter :
    (∀ (dailyLimit : Nat) (row : Option IpRateLimit) (today : Nat),
        checkIpRateLimitWith dailyLimit row today = true ↔
          (row = none ∨ ∃ rl, row = some rl ∧
            (rl.lastResetDate.getD today < today ∨
              rl.gamesStartedToday < dailyLimit))) ∧
    ((trackWith DAILY_GAME_LIMIT_OLD none 0).2 = true ∧
      (trackWith DAILY_GAME_LIMIT_OLD (trackWith DAILY_GAME_LIMIT_OLD none 0).1
          0).2 = true ∧
      (trackWith DAILY_GAME_LIMIT_OLD
          (trackWith DAILY_GAME_LIMIT_OLD
            (trackWith DAILY_GAME_LIMIT_OLD none 0).1 0).1 0).2 = true ∧
      (trackWith DAILY_GAME_LIMIT_OLD
          (trackWith DAILY_GAME_LIMIT_OLD
            (trackWith DAILY_GAME_LIMIT_OLD
              (trackWith DAILY_GAME_LIMIT_OLD none 0).1 0).1 0).1 0).2
        = false ∧
      (trackWith DAILY_GAME_LIMIT_OLD
          (trackWith DAILY_GAME_LIMIT_OLD
            (trackWith DAILY_GAME_LIMIT_OLD
              (trackWith DAILY_GAME_LIMIT_OLD none 0).1 0).1 0).1 0).1
        = (trackWith DAILY_GAME_LIMIT_OLD
            (trackWith DAILY_GAME_LIMIT_OLD
              (trackWith DAILY_GAME_LIMIT_OLD none 0).1 0).1 0).1 ∧
      (trackWith DAILY_GAME_LIMIT_OLD
          (trackWith DAILY_GAME_LIMIT_OLD
            (trackWith DAILY_GAME_LIMIT_OLD
              (trackWith DAILY_GAME_LIMIT_OLD none 0).1 0).1 0).1 1).2
        = true ∧
      (trackWith DAILY_GAME_LIMIT_OLD
          (trackWith DAILY_GAME_LIMIT_OLD
            (trackWith DAILY_GAME_LIMIT_OLD
              (trackWith DAILY_GAME_LIMIT_OLD none 0).1 0).1 0).1 1).1
        = some { gamesStartedToday := 1, lastResetDate := some 1 }) := by
  constructor
  · intro dailyLimit row today
    cases row with
    | none => simp [checkIpRateLimitWith]
    | some rl =>
        simp only [checkIpRateLimitWith]
        by_cases h : today > rl.lastResetDate.getD today
        · rw [if_pos h]
          constructor
          · intro _
            exact Or.inr ⟨rl, rfl, Or.inl h⟩
          · intro _
            rfl
        · rw [if_neg h]
          simp only [decide_eq_true_eq, Nat.not_le]
          constructor
          · intro hlt
            exact Or.inr ⟨rl, rfl, Or.inr hlt⟩
          · intro hr
            rcases hr with hnone | ⟨rl', heq, hcase⟩
            · exact absurd hnone (by simp)
            · cases heq
              rcases hcase with hlt | hcnt
              · exact absurd hlt h
              · exact hcnt
  · decide

/-! Claim C10 (response-shape validation). -/

/-- C10 counterexample: the schema accepts responses the claimed contract
rejects: an object with only two options while game_over is false, and an
object with a non-integer hp_current, both parse successfully. -/
theorem c10_counterexample :
    (decodeChatResponse exBadOptionsJson).isSome = true ∧
    specTurnResponseShape exBadOptionsJson = false ∧
    (decodeChatResponse exFracHpJson).isSome = true ∧
    specTurnResponseShape exFracHpJson = false := by
  decide

/-- C10 as amended: a generator response is accepted as success exactly when
it is an object whose seven required fields have the declared primitive
types - narrative, visual_prompt strings, hp_current and gold numbers (not
necessarily integers), inventory and options string arrays (of any length),
game_over boolean; anything else fails the parse and is treated as a
generator failure. -/
theorem c10_response_validation (j : Json) :
    (decodeChatResponse j).isSome = chatFieldsOk j := by
  unfold decodeChatResponse chatFieldsOk
  by_cases hobj : j.isObj
  · simp only [hobj, if_true]
    cases asString (j.getField "narrative") <;>
    cases asString (j.getField "visual_prompt") <;>
    cases asNumber (j.getField "hp_current") <;>
    cases asNumber (j.getField "gold") <;>
    cases asStringList (j.getField "inventory") <;>
    cases asStringList (j.getField "options") <;>
    cases asBool (j.getField "game_over") <;>
      simp
  · simp [hobj]

/-! Helper lemmas for claim C5 (resume reconstruction). -/

theorem map_normalizeEntry (l : List HistoryEntry) (h : rolesOk l) :
    l.map normalizeEntry = l := by
  induction l with
  | nil => rfl
  | cons e t ih =>
      obtain ⟨role, text⟩ := e
      have he := h ⟨role, text⟩ (List.mem_cons_self _ _)
      have ht : rolesOk t := fun x hx => h x (List.mem_cons_of_mem _ hx)
      rcases he with hu | hm
      · simp only [List.map_cons, ih ht, normalizeEntry]
        simp at hu
        simp [hu]
      · simp only [List.map_cons, ih ht, normalizeEntry]
        simp at hm
        simp [hm]

theorem rolesOk_append {l1 l2 : List HistoryEntry} (h1 : rolesOk l1)
    (h2 : rolesOk l2) : rolesOk (l1 ++ l2) := by
  intro e he
  rcases List.mem_append.mp he with h | h
  · exact h1 e h
  · exact h2 e h

theorem rolesOk_userEntry (a : String) : rolesOk [userEntry a] := by
  intro e he
  simp at he
  subst he
  exact Or.inl rfl

theorem rolesOk_cons_user (a : String) {l : List HistoryEntry}
    (h : rolesOk l) : rolesOk (userEntry a :: l) := by
  intro e he
  rcases List.mem_cons.mp he with h1 | h2
  · subst h1; exact Or.inl rfl
  · exact h e h2

theorem rolesOk_interleaved (s : List (String × TurnResponse)) :
    rolesOk (interleaved s) := by
  induction s with
  | nil => intro e he; exact absurd he (List.not_mem_nil e)
  | cons p rest ih =>
      obtain ⟨a, r⟩ := p
      intro e he
      rcases List.mem_cons.mp he with h1 | he2
      · subst h1; exact Or.inl rfl
      · rcases List.mem_cons.mp he2 with h2 | he3
        · subst h2; exact Or.inr rfl
        · exact ih e he3

theorem rolesOk_liveHistFrom (s : List (String × TurnResponse)) :
    ∀ n, rolesOk (liveHistFrom n s) := by
  induction s with
  | nil => intro n e he; exact absurd he (List.not_mem_nil e)
  | cons p rest ih =>
      obtain ⟨a, r⟩ := p
      intro n e he
      simp only [liveHistFrom] at he
      rcases List.mem_append.mp he with h1 | h2
      · by_cases hn : n > 0
        · simp [hn] at h1
          subst h1
          exact Or.inl rfl
        · simp [hn] at h1
      · rcases List.mem_cons.mp h2 with h3 | h4
        · subst h3; exact Or.inr rfl
        · exact ih (n + 1) e h4

theorem buildGeminiHistory_eq (l : List HistoryEntry) (ui act1 : String)
    (h : rolesOk l) (hne : l ≠ []) : buildGeminiHistory l ui act1 = l := by
  cases l with
  | nil => exact absurd rfl hne
  | cons e t =>
      unfold buildGeminiHistory
      rw [map_normalizeEntry (e :: t) h]
      rfl

theorem handleTurn_step (srv : SessionState) (g : GameState) (a : String)
    (r : TurnResponse) (c : CampaignData)
    (hact : srv.adventure.status = Status.active)
    (hc : g.endgame = some c) (hmax : g.maxTurns = -1)
    (hid : g.id.isSome = true) (ha : a ≠ "") (hn : r.narrative ≠ "")
    (hgo : r.game_over = false) :
    handleTurn true srv g a (fun _ => some r) =
      ({ adventure := { srv.adventure with
            turnCount := srv.adventure.turnCount + 1
            currentHp := r.hp_current
            gold := r.gold
            inventory := r.inventory }
         turns := srv.turns
           ++ [mkTurnRow (srv.adventure.turnCount + 1)
                 (turnDataOfResponse a r)] },
       { g with
          hp := r.hp_current
          gold := r.gold
          inventory := r.inventory
          turn := g.turn + 1
          history := newHistoryFor g a
            ++ [modelEntry (serializeResponseNoVP r)] }) := by
  have hchat : aiChat g (newHistoryFor g a) a (fun _ => some r)
      = ChatOutcome.ok r := by
    unfold aiChat
    rw [if_neg ?hneg]
    · rw [hc]
    case hneg =>
      rw [hmax]
      norm_num [jsOrInt]
  have hvalid : createTurnValid (turnDataOfResponse a r) = true := by
    simp [createTurnValid, turnDataOfResponse, ha, hn]
  have happ : applyTurnResult srv a r =
      { adventure := { srv.adventure with
            turnCount := srv.adventure.turnCount + 1
            currentHp := r.hp_current
            gold := r.gold
            inventory := r.inventory }
        turns := srv.turns
          ++ [mkTurnRow (srv.adventure.turnCount + 1)
                (turnDataOfResponse a r)] } := by
    simp only [applyTurnResult, hgo]
    rw [saveTurnRoute_eq srv _ hact hvalid]
    simp [turnDataOfResponse]
  simp only [handleTurn, apiChat, hchat]
  simp [hid, happ, serializeClientBody]

theorem runScript_eq (s : List (String × TurnResponse)) :
    ∀ (srv : SessionState) (g : GameState), inSync srv g → scriptOk s →
      runScript srv g s =
        ({ adventure := { srv.adventure with
              turnCount := srv.adventure.turnCount + s.length
              currentHp := finalHp g.hp s
              gold := finalGold g.gold s
              inventory := finalInv g.inventory s }
           turns := srv.turns ++ recordsFrom srv.adventure.turnCount s },
         { g with
            hp := finalHp g.hp s
            gold := finalGold g.gold s
            inventory := finalInv g.inventory s
            turn := g.turn + s.length
            history := g.history ++ liveHistFrom g.turn s }) := by
  induction s with
  | nil =>
      intro srv g hsync _
      obtain ⟨hact, hcnt, hhp, hgold, hinv, hmax, hid, c, hc⟩ := hsync
      rw [Prod.ext_iff]
      constructor
      · show srv = _
        rw [← hhp, ← hgold, ← hinv]
        simp [recordsFrom, finalHp, finalGold, finalInv]
      · show g = _
        simp [liveHistFrom, finalHp, finalGold, finalInv]
  | cons p rest ih =>
      obtain ⟨a, r⟩ := p
      intro srv g hsync hok
      obtain ⟨hact, hcnt, hhp, hgold, hinv, hmax, hid, c, hc⟩ := hsync
      have hpa := hok (a, r) (List.mem_cons_self _ _)
      have hrest : scriptOk rest := fun q hq => hok q (List.mem_cons_of_mem _ hq)
      have hstep := handleTurn_step srv g a r c hact hc hmax hid hpa.1 hpa.2.1
        hpa.2.2
      have hnew : inSync
          ({ adventure := { srv.adventure with
                turnCount := srv.adventure.turnCount + 1
                currentHp := r.hp_current
                gold := r.gold
                inventory := r.inventory }
             turns := srv.turns
               ++ [mkTurnRow (srv.adventure.turnCount + 1)
                     (turnDataOfResponse a r)] } : SessionState)
          { g with
             hp := r.hp_current
             gold := r.gold
             inventory := r.inventory
             turn := g.turn + 1
             history := newHistoryFor g a
               ++ [modelEntry (serializeResponseNoVP r)] } := by
        refine ⟨hact, ?_, rfl, rfl, rfl, hmax, hid, ⟨c, hc⟩⟩
        simp [hcnt]
      simp only [runScript, hstep]
      rw [ih _ _ hnew hrest]
      by_cases hgt : g.turn > 0 <;>
        · simp [recordsFrom, liveHistFrom, finalHp, finalGold, finalInv,
            newHistoryFor, hgt, List.append_assoc]
          omega

theorem liveHistFrom_succ (s : List (String × TurnResponse)) :
    ∀ n, liveHistFrom (n + 1) s = interleaved s := by
  induction s with
  | nil => intro n; rfl
  | cons p rest ih =>
      obtain ⟨a, r⟩ := p
      intro n
      simp [liveHistFrom, interleaved, ih (n + 1)]

theorem reconHistory_recordsFrom (s : List (String × TurnResponse))
    (hok : scriptOk s) : ∀ n, reconHistory (recordsFrom n s) = interleaved s := by
  induction s with
  | nil => intro n; rfl
  | cons p rest ih =>
      obtain ⟨a, r⟩ := p
      have hpa := hok (a, r) (List.mem_cons_self _ _)
      have hrest : scriptOk rest := fun q hq => hok q (List.mem_cons_of_mem _ hq)
      intro n
      simp only [recordsFrom, reconHistory, List.map_cons, List.flatten_cons]
      have hr : reconHistory (recordsFrom (n + 1) rest) = interleaved rest :=
        ih hrest (n + 1)
      simp only [reconHistory] at hr
      rw [hr]
      have hgo : r.game_over = false := hpa.2.2
      simp [interleaved, mkTurnRow, turnDataOfResponse, serializeTurnForHistory,
        serializeResponseNoVP, hgo]

/-! Claim C5 (resume reconstruction equivalence). -/

/-- C5 counterexample: after one live turn, the reconstructed session does
not send the same generator context as the uninterrupted session: the
reconstruction replays the stored player action of turn 1 as a leading user
entry, which the live history never contained, and it substitutes the stored
themeSeeds for the live customInstructions. -/
theorem c5_counterexample :
    advanceContextOf
        (adventureToGameState "adv1"
          (runScript exWarriorSession exWarriorState
            [("Begin Act 1: A1. Introduce Thorgar.", exResp1)]).1.adventure
          (runScript exWarriorSession exWarriorState
            [("Begin Act 1: A1. Introduce Thorgar.", exResp1)]).1.turns)
        "Go north"
      ≠ advanceContextOf
          (runScript exWarriorSession exWarriorState
            [("Begin Act 1: A1. Introduce Thorgar.", exResp1)]).2
          "Go north" := by
  decide

/-- C5 as amended: for a session played from creation through turns 1..N
(nonempty script, playable turns), resuming and advancing to turn N+1 sends a
generator context that differs from the uninterrupted one in exactly two
ways: the conversation gains one extra leading user entry holding turn 1's
player action (the live turn 1 never pushed its initiating input into
history), and the customInstructions slot carries the stored themeSeeds
instead of the live customInstructions. All other scene-state fields and the
rest of the conversation are identical. -/
theorem c5_resume_context (uid id2 : String) (g0 : GameState) (c : CampaignData)
    (a0 : String) (r0 : TurnResponse) (rest : List (String × TurnResponse))
    (a : String)
    (h0 : g0.turn = 0) (hh : g0.history = []) (hc : g0.endgame = some c)
    (hmax : g0.maxTurns = -1) (hid : g0.id.isSome = true)
    (hok : scriptOk ((a0, r0) :: rest)) :
    ∃ gi : GenInput,
      advanceContextOf
          (runScript { adventure := createdAdventure uid g0, turns := [] } g0
            ((a0, r0) :: rest)).2 a = some gi ∧
      advanceContextOf
          (adventureToGameState id2
            (runScript { adventure := createdAdventure uid g0, turns := [] } g0
              ((a0, r0) :: rest)).1.adventure
            (runScript { adventure := createdAdventure uid g0, turns := [] } g0
              ((a0, r0) :: rest)).1.turns) a
        = some { gi with
            contents := userEntry a0 :: gi.contents
            customInstructions := g0.themeSeeds } := by
  have hsync : inSync
      { adventure := createdAdventure uid g0, turns := [] } g0 := by
    refine ⟨rfl, ?_, rfl, rfl, rfl, hmax, hid, ⟨c, hc⟩⟩
    exact h0.symm
  have hrun := runScript_eq ((a0, r0) :: rest)
    { adventure := createdAdventure uid g0, turns := [] } g0 hsync hok
  have hlive_roles :
      rolesOk (liveHistFrom 0 ((a0, r0) :: rest) ++ [userEntry a]) :=
    rolesOk_append (rolesOk_liveHistFrom _ 0) (rolesOk_userEntry a)
  have hbg1 := buildGeminiHistory_eq
    (liveHistFrom 0 ((a0, r0) :: rest) ++ [userEntry a]) a c.act1 hlive_roles
    (by simp)
  have hcons_roles :
      rolesOk (userEntry a0
        :: (liveHistFrom 0 ((a0, r0) :: rest) ++ [userEntry a])) :=
    rolesOk_cons_user a0 hlive_roles
  have hbg2 := buildGeminiHistory_eq
    (userEntry a0 :: (liveHistFrom 0 ((a0, r0) :: rest) ++ [userEntry a])) a
    c.act1 hcons_roles (by simp)
  have hinter : interleaved ((a0, r0) :: rest)
      = userEntry a0 :: liveHistFrom 0 ((a0, r0) :: rest) := by
    simp [interleaved, liveHistFrom, liveHistFrom_succ]
  have hreconBase := reconHistory_recordsFrom ((a0, r0) :: rest) hok 0
  refine ⟨{ customInstructions := g0.customInstructions
            name := g0.name
            gender := g0.gender
            race := g0.race
            charClass := g0.charClass
            characterDescription := g0.characterDescription
            hp := finalHp g0.hp ((a0, r0) :: rest)
            gold := finalGold g0.gold ((a0, r0) :: rest)
            inventory := finalInv g0.inventory ((a0, r0) :: rest)
            endgame := c
            contents := liveHistFrom 0 ((a0, r0) :: rest) ++ [userEntry a] },
    ?_, ?_⟩
  · rw [hrun]
    simp [advanceContextOf, genInputOf, newHistoryFor, hc, hh, h0, hbg1]
  · rw [hrun]
    simp [advanceContextOf, adventureToGameState, genInputOf, newHistoryFor,
      createdAdventure, hc, hreconBase, hinter, hbg2]

/-- C5 witness: the amended theorem applied to a concrete one-turn run from
the Warrior fixture. -/
theorem c5_resume_context_witness :
    ∃ gi : GenInput,
      advanceContextOf
          (runScript exWarriorSession exWarriorState
            [("Begin Act 1: A1. Introduce Thorgar.", exResp1)]).2 "Go north"
        = some gi ∧
      advanceContextOf
          (adventureToGameState "adv1"
            (runScript exWarriorSession exWarriorState
              [("Begin Act 1: A1. Introduce Thorgar.", exResp1)]).1.adventure
            (runScript exWarriorSession exWarriorState
              [("Begin Act 1: A1. Introduce Thorgar.", exResp1)]).1.turns)
          "Go north"
        = some { gi with
            contents := userEntry "Begin Act 1: A1. Introduce Thorgar."
              :: gi.contents
            customInstructions := exWarriorState.themeSeeds } :=
  c5_resume_context "u1" "adv1" exWarriorState exCampaign
    "Begin Act 1: A1. Introduce Thorgar." exResp1 [] "Go north" rfl rfl rfl rfl
    (by decide)
    (by intro p hp; simp at hp; subst hp; refine ⟨by decide, by decide, rfl⟩)

end GemRPG
